import Mathlib

/-!
Formal model of the date-planner pipeline (`python/date-planner/main.py`).

The script orchestrates: query generation (LLM), concurrent browser
searches (one task per query), aggregation, LLM scoring, filtering and
presentation.  External effects (LLM replies, browser extraction and
enrichment outcomes) are modelled as explicit inputs; the orchestration
logic itself is translated function by function from the source.
-/

set_option maxHeartbeats 1000000

namespace DatePlanner

/-! ## Data model (Pydantic models of the script) -/

/-- Mirrors `DatePlannerAnswers` in the source. -/
structure DatePlannerAnswers where
  date_preference : String
  cuisine_type : String
  location : String
  budget : String
  special_requirements : String
deriving DecidableEq, Repr

/-- Mirrors `VerifiedDetails` in the source. -/
structure VerifiedDetails where
  description : Option String
  hours : Option String
  phone : Option String
  address : Option String
  reservation_available : Option Bool
deriving DecidableEq, Repr

/-- Mirrors `Restaurant` in the source. -/
structure Restaurant where
  name : String
  url : String
  rating : String
  price_range : String
  cuisine : String
  location : String
  ai_score : Option Int := none
  ai_reason : Option String := none
  verified : Option Bool := none
  verified_details : Option VerifiedDetails := none
deriving DecidableEq, Repr

/-- Mirrors `SearchResult` in the source. -/
structure SearchResult where
  query : String
  session_index : Nat
  restaurants : List Restaurant
deriving DecidableEq, Repr

/-- Mirrors the per-search extraction schema `SearchResultItem`. -/
structure SearchResultItem where
  name : String
  url : String
  snippet : Option String := none
deriving DecidableEq, Repr

/-- Mirrors the enrichment extraction schema `RestaurantDetailItem`. -/
structure RestaurantDetailItem where
  name : String
  rating : String
  price_range : String
  cuisine : String
  location : String
  description : Option String := none
  hours : Option String := none
  phone : Option String := none
  address : Option String := none
  reservation_available : Option Bool := none
deriving DecidableEq, Repr

/-- Python `s or d` on strings: the empty string is falsy. -/
def strOr (s d : String) : String := if s = "" then d else s

/-- Python `str.lower`, computed characterwise. -/
def pyLower (s : String) : String := (s.toList.map Char.toLower).asString

/-- Python `str.strip` (whitespace removed from both ends), computed
characterwise. -/
def pyStrip (s : String) : String :=
  ((s.toList.dropWhile Char.isWhitespace).reverse.dropWhile Char.isWhitespace).reverse.asString

/-- Python `s.split("\n")`, computed characterwise. -/
def pySplitLines (s : String) : List String :=
  (List.splitOn '\n' s.toList).map List.asString

/-- Python `s.endswith(t)`, computed characterwise. -/
def pyEndsWith (s t : String) : Bool := t.toList.isSuffixOf s.toList

/-- Python `s[:-1]`, computed characterwise. -/
def pyDropLast (s : String) : String := s.toList.dropLast.asString

/-- Python substring test `sub in s`, on the character lists. -/
def containsSub (s sub : String) : Bool :=
  (List.range (s.toList.length + 1)).any fun i => sub.toList.isPrefixOf (s.toList.drop i)

/-- Substring containment as a proposition (used to state the fallback-query claim). -/
def containsStr (s sub : String) : Prop := ∃ p q, p ++ sub ++ q = s

/-! ## Query generation (`generate_search_queries` and the fallback in `main`) -/

/-- Model of `generate_search_queries`, as a function of the LLM reply content
(`none` models a `null` content field).  The source splits the stripped content
on newlines, strips each line, drops blank lines and keeps at most 3. -/
def generateSearchQueries (content : Option String) : List String :=
  let queries : List String :=
    match content with
    | none => []
    | some c => if c = "" then [] else pySplitLines (pyStrip c)
  (queries.filterMap fun q => if pyStrip q = "" then none else some (pyStrip q)).take 3

/-- Model of the deterministic fallback queries built in `main` when
`generate_search_queries` raises. -/
def fallbackQueries (cuisine location budget : String) : List String :=
  [ cuisine ++ " restaurants in " ++ location
  , cuisine ++ " " ++ location ++ " " ++ budget
  , "best " ++ cuisine ++ " restaurants " ++ location ]

/-! ## Scoring (`score_restaurants`)

The LLM reply is modelled post `json.loads`: a successful parse yields a list
of entries (JSON objects whose keys may be absent, hence `Option` fields); a
parse or content-processing failure inside the `try` block is `none`; an
exception raised by the request itself — which in the source happens *before*
the `try` block — is a separate constructor, since it propagates. -/

/-- One element of the JSON array returned by the scoring model
(`restaurantIndex`, `score`, `reason`; any key may be absent). -/
structure ScoreEntry where
  restaurantIndex : Option Int := none
  score : Option Int := none
  reason : Option String := none
deriving DecidableEq, Repr

/-- Outcome of the scoring request: the request raising (before the `try`
block in the source), or a reply whose parse failed (`none`), or a parsed
entry list. -/
inductive ScorerOutcome where
  | requestFail (msg : String)
  | reply (parsed : Option (List ScoreEntry))
deriving DecidableEq, Repr

/-- Python `next((s for s in scores_data if s.get("restaurantIndex") == idx), None)`. -/
def findScore (entries : List ScoreEntry) (idx : Int) : Option ScoreEntry :=
  entries.find? fun e => e.restaurantIndex == some idx

/-- Writing one score entry (or its absence) back onto a restaurant:
`score_info.get("score", 0)` and `score_info.get("reason", "No scoring available")`,
with score 0 and reason `"No scoring available"` when no entry matched. -/
def applyScore (r : Restaurant) (info : Option ScoreEntry) : Restaurant :=
  match info with
  | some e => { r with ai_score := some (e.score.getD 0),
                       ai_reason := some (e.reason.getD "No scoring available") }
  | none => { r with ai_score := some 0, ai_reason := some "No scoring available" }

/-- The index-matching loop of `score_restaurants`: candidate at 0-based
position `i` is matched against the entry with `restaurantIndex == i + 1`. -/
def assignScores (rs : List Restaurant) (entries : List ScoreEntry) : List Restaurant :=
  rs.enum.map fun p => applyScore p.2 (findScore entries ((p.1 : Int) + 1))

/-- Sort key of the final `sort`: Python `x.ai_score or 0` (both `None` and 0
give 0). -/
def sortKey (r : Restaurant) : Int := r.ai_score.getD 0

/-- The comparator embodied by `sort(key=..., reverse=True)`: descending by
`sortKey`; Python list sort is stable, `List.mergeSort` with this relation is
its model. -/
def descLe (a b : Restaurant) : Bool := decide (sortKey b ≤ sortKey a)

/-- The neutral fallback applied to every candidate when the reply cannot be
processed. -/
def fallbackScore (r : Restaurant) : Restaurant :=
  { r with ai_score := some 5, ai_reason := some "Scoring failed - using neutral score" }

/-- The list held in `scored_restaurants` just before the final sort (the
fallback branch never sorts). -/
def preSortScored (rs : List Restaurant) (parsed : Option (List ScoreEntry)) : List Restaurant :=
  match parsed with
  | none => rs.map fallbackScore
  | some entries => assignScores rs entries

/-- Model of `score_restaurants`.  The empty-input check precedes the request,
so an empty list returns `[]` whatever the outcome; a request failure
propagates (`Except.error`); a reply is scored inside the `try` block, falling
back to neutral scores without sorting when processing fails. -/
def scoreRestaurants (rs : List Restaurant) (requirements cuisine budget : String)
    (outcome : ScorerOutcome) : Except String (List Restaurant) :=
  if rs.isEmpty then .ok []
  else
    match outcome with
    | .requestFail m => .error m
    | .reply none => .ok (rs.map fallbackScore)
    | .reply (some entries) => .ok ((assignScores rs entries).mergeSort descLe)

/-! ## Filtering (the loop after scoring in `main`) -/

/-- The fixed threshold `MIN_SCORE_THRESHOLD` in `main`. -/
def MIN_SCORE_THRESHOLD : Int := 5

/-- The `cuisine_mismatch_indicators` list built in `main` from the requested
cuisine (including the quirk of dropping a trailing `n` in the fourth phrase). -/
def cuisine_mismatch_indicators (cuisine_type : String) : List String :=
  let cl := pyLower cuisine_type
  [ "not " ++ cl
  , "doesn\x27t match cuisine"
  , "wrong cuisine"
  , "not " ++ (if pyEndsWith cl "n" then pyDropLast cl else cl) ++ " cuisine" ]

/-- The per-candidate keep condition of the filtering loop: Python
`restaurant.ai_score or 0` at least the threshold, and the lowercased
`restaurant.ai_reason or ""` containing no mismatch indicator. -/
def keepRestaurant (cuisine_type : String) (r : Restaurant) : Bool :=
  let score := r.ai_score.getD 0
  let reason := pyLower (r.ai_reason.getD "")
  if score < MIN_SCORE_THRESHOLD then false
  else if (cuisine_mismatch_indicators cuisine_type).any fun ind => containsSub reason ind then false
  else true

/-- The `for` loop of `main` that builds `filtered_restaurants` by appending
each kept candidate. -/
def filterLoop (cuisine_type : String) (scored : List Restaurant) : List Restaurant :=
  scored.foldl (fun acc r => if keepRestaurant cuisine_type r then acc ++ [r] else acc) []

/-- `top3_restaurants = filtered_restaurants[:3]` in `main`. -/
def top3Restaurants (cuisine_type : String) (scored : List Restaurant) : List Restaurant :=
  (filterLoop cuisine_type scored).take 3

/-! ## Concurrent search tasks (`run_single_search` in `main`) -/

/-- Environment of one search task: either some step of the outer `try` block
raises (session creation, navigation, extraction — all collapse to an
empty-candidate outcome), or the task obtains an extracted `restaurants_list`
together with the per-index outcome of the optional enrichment step
(`none` at index `i` models the inner `try` block raising for candidate `i`;
indices beyond the list length also model failures). -/
inductive TaskEnv where
  | sessionFail (msg : String)
  | run (items : List SearchResultItem) (enrich : List (Option RestaurantDetailItem))
deriving DecidableEq, Repr

/-- One iteration of the verification loop: on enrichment success the record
is marked verified and detail fields are taken with Python `or` fallbacks; on
failure the search-result info is kept with neutral placeholder texts and the
record is marked unverified. -/
def verifyOne (ui : DatePlannerAnswers) (result : SearchResultItem)
    (outcome : Option RestaurantDetailItem) : Restaurant :=
  match outcome with
  | some detail =>
    { name := strOr detail.name result.name
      url := result.url
      rating := strOr detail.rating "Rating not available"
      price_range := strOr detail.price_range "Price not specified"
      cuisine := strOr detail.cuisine ui.cuisine_type
      location := strOr detail.location ui.location
      verified := some true
      verified_details := some
        { description := detail.description
          hours := detail.hours
          phone := detail.phone
          address := detail.address
          reservation_available := detail.reservation_available } }
  | none =>
    { name := result.name
      url := result.url
      rating := "Rating not verified"
      price_range := "Price not verified"
      cuisine := ui.cuisine_type
      location := ui.location
      verified := some false }

/-- Model of `run_single_search`: any failure of the outer `try` block yields
an empty-candidate `SearchResult` for the query; otherwise the first
`min(3, len(restaurants_list))` extracted items are verified in order. -/
def runSingleSearch (ui : DatePlannerAnswers) (query : String) (session_index : Nat)
    (env : TaskEnv) : SearchResult :=
  match env with
  | .sessionFail _ => { query := query, session_index := session_index + 1, restaurants := [] }
  | .run items enrich =>
    { query := query
      session_index := session_index + 1
      restaurants := (items.take 3).enum.map fun p => verifyOne ui p.2 (enrich.getD p.1 none) }

/-- The list built by `asyncio.gather` over
`[run_single_search(query, index, user_input) for index, query in enumerate(search_queries)]`:
a full join in launch order, each task reading only its own environment. -/
def searchPipeline (ui : DatePlannerAnswers) (queries : List String)
    (envs : Nat → TaskEnv) : List SearchResult :=
  queries.enum.map fun p => runSingleSearch ui p.2 p.1 (envs p.1)

/-! ## Aggregation (the flattening loop in `main`) -/

/-- The loop `for result in all_results: all_restaurants_flat.extend(result.restaurants)`. -/
def aggregateRestaurants (results : List SearchResult) : List Restaurant :=
  results.foldl (fun acc r => acc ++ r.restaurants) []

/-! ## Nearby activities (`find_nearby_activities`) -/

/-- Environment of the activities call: `error` models the request raising or
the content being `None` (both are caught by the blanket `except`); `ok`
carries the reply content. -/
def findNearbyActivities (outcome : Except String String) : List String :=
  match outcome with
  | .error _ => ["Walk in the neighborhood", "Visit a nearby park", "Check out local shops"]
  | .ok content =>
    (pySplitLines (pyStrip content)).filterMap fun a => if pyStrip a = "" then none else some (pyStrip a)

/-! ## Helper lemmas -/

theorem foldl_append_restaurants (results : List SearchResult) (acc : List Restaurant) :
    results.foldl (fun acc r => acc ++ r.restaurants) acc
      = acc ++ (results.map (fun r => r.restaurants)).flatten := by
  induction results generalizing acc with
  | nil => simp
  | cons r rest ih => simp [List.foldl_cons, ih, List.append_assoc]

theorem aggregateRestaurants_eq (results : List SearchResult) :
    aggregateRestaurants results = (results.map (fun r => r.restaurants)).flatten := by
  simpa using foldl_append_restaurants results []

theorem length_aggregateRestaurants (results : List SearchResult) :
    (aggregateRestaurants results).length
      = (results.map (fun r => r.restaurants.length)).sum := by
  rw [aggregateRestaurants_eq, List.length_flatten, List.map_map]
  rfl

theorem filterLoop_go (cuisine_type : String) (scored : List Restaurant)
    (acc : List Restaurant) :
    scored.foldl (fun acc r => if keepRestaurant cuisine_type r then acc ++ [r] else acc) acc
      = acc ++ scored.filter (keepRestaurant cuisine_type) := by
  induction scored generalizing acc with
  | nil => simp
  | cons r rest ih =>
    by_cases h : keepRestaurant cuisine_type r
    · simp [List.foldl_cons, h, ih, List.filter_cons, List.append_assoc]
    · simp [List.foldl_cons, h, ih, List.filter_cons]

theorem filterLoop_eq_filter (cuisine_type : String) (scored : List Restaurant) :
    filterLoop cuisine_type scored = scored.filter (keepRestaurant cuisine_type) := by
  simpa using filterLoop_go cuisine_type scored []

theorem getElem?_enum_map {α β : Type} (l : List α) (f : Nat × α → β) (i : Nat) :
    (l.enum.map f)[i]? = l[i]?.map fun a => f (i, a) := by
  rw [List.getElem?_map, List.enum_eq_enumFrom, List.getElem?_enumFrom]
  cases l[i]? <;> simp

theorem searchPipeline_getElem? (ui : DatePlannerAnswers) (queries : List String)
    (envs : Nat → TaskEnv) (i : Nat) :
    (searchPipeline ui queries envs)[i]?
      = queries[i]?.map fun q => runSingleSearch ui q i (envs i) := by
  simpa [searchPipeline] using
    getElem?_enum_map queries (fun p => runSingleSearch ui p.2 p.1 (envs p.1)) i

/-! ## Claim theorems -/

/-- C6: the Aggregator is a pure concatenation of the Outcomes, preserving each
the internal candidate order of each Outcome and iterating Outcomes in launch order, with
no deduplication: it equals the flatten of the candidate sequences, and its
length is always the sum of the per-Outcome lengths (so duplicates are kept);
being a pure function, re-running it on the same Outcomes gives the same list. -/
theorem claim_C6 (results : List SearchResult) :
    aggregateRestaurants results = (results.map (fun r => r.restaurants)).flatten ∧
    (aggregateRestaurants results).length
      = (results.map (fun r => r.restaurants.length)).sum := by
  exact ⟨aggregateRestaurants_eq results, length_aggregateRestaurants results⟩

/-- C9: the nearby-activities step is a single call whose failure is converted
into the fixed 3-item generic fallback list rather than an error. -/
theorem claim_C9 (msg : String) :
    findNearbyActivities (.error msg)
      = ["Walk in the neighborhood", "Visit a nearby park", "Check out local shops"] ∧
    (findNearbyActivities (.error msg)).length = 3 := by
  exact ⟨rfl, rfl⟩

/-- C10: on an empty candidate list the Scorer returns the empty list at once,
for every choice of requirements, cuisine and budget, and independently of the
request outcome (in particular even when the request would have failed — no
request is consulted). -/
theorem claim_C10 (requirements cuisine budget : String) (outcome : ScorerOutcome) :
    scoreRestaurants [] requirements cuisine budget outcome = .ok [] := rfl

/-- C4 counterexample: on a reply whose content is the empty string the query
generator returns zero queries, refuting the lower bound of one. -/
theorem claim_C4_counterexample :
    (generateSearchQueries (some "")).length = 0 ∧
    ¬ (1 ≤ (generateSearchQueries (some "")).length) := by
  exact ⟨rfl, by decide⟩

/-- C4 (amended): for every model reply the Query Generator returns at most 3
query strings, each of them non-empty (a reply with no usable line yields zero
queries, so the lower bound of one does not hold); and on generation failure
the caller falls back to exactly 3 deterministic template-built queries, each
containing the requested category and the requested location as substrings. -/
theorem claim_C4 (content : Option String) (cuisine location budget : String) :
    (generateSearchQueries content).length ≤ 3 ∧
    (∀ q ∈ generateSearchQueries content, q ≠ "") ∧
    (fallbackQueries cuisine location budget).length = 3 ∧
    (∀ q ∈ fallbackQueries cuisine location budget,
      containsStr q cuisine ∧ containsStr q location) := by
  refine ⟨List.length_take_le .., ?_, rfl, ?_⟩
  · intro q hq
    have hq' := List.mem_of_mem_take hq
    rcases List.mem_filterMap.mp hq' with ⟨a, -, ha⟩
    by_cases h : pyStrip a = ""
    · simp [h] at ha
    · simp only [h, if_false, Option.some_inj] at ha
      exact ha ▸ h
  · intro q hq
    simp only [fallbackQueries, List.mem_cons, List.not_mem_nil, or_false] at hq
    rcases hq with h | h | h <;> subst h <;> constructor
    · exact ⟨"", " restaurants in " ++ location, by
        simp [String.append_assoc]⟩
    · exact ⟨cuisine ++ " restaurants in ", "", by
        simp [String.append_assoc]⟩
    · exact ⟨"", " " ++ location ++ " " ++ budget, by
        simp [String.append_assoc]⟩
    · exact ⟨cuisine ++ " ", " " ++ budget, by
        simp [String.append_assoc]⟩
    · exact ⟨"best ", " restaurants " ++ location, by
        simp [String.append_assoc]⟩
    · exact ⟨"best " ++ cuisine ++ " restaurants ", "", by
        simp [String.append_assoc]⟩

/-- A concrete candidate for the worked instances: score `s`, a rationale with
no mismatch phrase. -/
def c3cand (n : String) (s : Int) : Restaurant :=
  { name := n, url := "u", rating := "4.5 stars", price_range := "$$"
    cuisine := "Italian", location := "Austin"
    ai_score := some s, ai_reason := some "Good match" }

/-- The five-candidate list of the spec instance, scores [9,6,4,8,2]. -/
def c3input : List Restaurant :=
  [c3cand "A" 9, c3cand "B" 6, c3cand "C" 4, c3cand "D" 8, c3cand "E" 2]

unseal List.merge List.mergeSort in
/-- C3: the filtering loop keeps exactly the candidates with score at least 5
whose lowercased rationale contains no mismatch phrase, in sequence order, and
the Ranked Result Set is the first 3 survivors; in particular, five candidates
scored [9,6,4,8,2] with clean rationales, once sorted by the Scorer and
filtered, give the score-9, score-8 and score-6 candidates. -/
theorem claim_C3 (cuisine_type : String) (scored : List Restaurant) :
    top3Restaurants cuisine_type scored
      = (scored.filter (keepRestaurant cuisine_type)).take 3 ∧
    top3Restaurants "Italian" (c3input.mergeSort descLe)
      = [c3cand "A" 9, c3cand "D" 8, c3cand "B" 6] := by
  constructor
  · rw [top3Restaurants, filterLoop_eq_filter]
  · decide

/-- C5 counterexample: a request failure (the API call raising, which in the
source happens before the `try` block) propagates out of the Scorer instead of
being recovered with neutral scores. -/
theorem claim_C5_counterexample :
    scoreRestaurants [c3cand "A" 9] "quiet" "Italian" "$$" (.requestFail "network error")
      = .error "network error" ∧
    (scoreRestaurants [c3cand "A" 9] "quiet" "Italian" "$$"
        (.requestFail "network error")).isOk = false := by
  exact ⟨rfl, rfl⟩

/-- C5 (amended): any failure while processing or parsing the model reply
(inside the `try` block) is recovered without raising: every candidate gets the
neutral score 5 with a rationale noting the fallback, and the returned order is
the aggregated input order, position by position (no sorting on this path).  A
failure of the request itself, by contrast, propagates to the caller. -/
theorem claim_C5 (rs : List Restaurant) (requirements cuisine budget : String) :
    scoreRestaurants rs requirements cuisine budget (.reply none)
      = .ok (rs.map fallbackScore) ∧
    (rs.map fallbackScore).length = rs.length ∧
    (∀ i : Nat, (rs.map fallbackScore)[i]? = rs[i]?.map fallbackScore) ∧
    (∀ r : Restaurant, (fallbackScore r).ai_score = some 5 ∧
      (fallbackScore r).ai_reason = some "Scoring failed - using neutral score" ∧
      (fallbackScore r).name = r.name) := by
  refine ⟨?_, List.length_map .., fun i => List.getElem?_map .., fun r => ⟨rfl, rfl, rfl⟩⟩
  cases rs with
  | nil => rfl
  | cons r rest => rfl

/-- C7 counterexample: the rationale assigned to an unmatched candidate is the
string with a capital N, not the lowercase string quoted by the claim. -/
theorem claim_C7_counterexample :
    ((assignScores [c3cand "A" 9] []).map fun r => r.ai_reason)
      = [some "No scoring available"] ∧
    ¬ ((assignScores [c3cand "A" 9] []).map fun r => r.ai_reason)
      = [some "no scoring available"] := by
  exact ⟨rfl, by decide⟩

/-- C7 (amended): during result mapping, a candidate at 1-based position `i+1`
for which the parsed reply holds no entry with that ordinal is assigned score 0
and the rationale "No scoring available". -/
theorem claim_C7 (rs : List Restaurant) (entries : List ScoreEntry) (i : Nat)
    (r : Restaurant) (hr : rs[i]? = some r)
    (habsent : findScore entries ((i : Int) + 1) = none) :
    (assignScores rs entries)[i]?
      = some { r with ai_score := some 0, ai_reason := some "No scoring available" } := by
  rw [assignScores, getElem?_enum_map, hr]
  simp only [Option.map_some]
  rw [habsent]
  rfl

/-- C7 witness: one candidate, one entry whose ordinal is 5 (so position 1 is
unmatched): score 0 and rationale "No scoring available" are assigned. -/
theorem claim_C7_witness :
    ([c3cand "A" 9] : List Restaurant)[0]? = some (c3cand "A" 9) ∧
    findScore [{ restaurantIndex := some 5, score := some 3 }] ((0 : Int) + 1) = none ∧
    (assignScores [c3cand "A" 9] [{ restaurantIndex := some 5, score := some 3 }])[0]?
      = some { c3cand "A" 9 with ai_score := some 0, ai_reason := some "No scoring available" } := by
  exact ⟨rfl, rfl, claim_C7 _ _ 0 _ rfl rfl⟩

theorem descLe_trans (a b c : Restaurant) (hab : descLe a b) (hbc : descLe b c) :
    descLe a c := by
  simp only [descLe, decide_eq_true_eq] at *
  exact le_trans hbc hab

theorem descLe_total (a b : Restaurant) : descLe a b || descLe b a := by
  simp only [descLe, Bool.or_eq_true, decide_eq_true_eq]
  exact (Int.le_total (sortKey a) (sortKey b)).symm

theorem length_assignScores (rs : List Restaurant) (entries : List ScoreEntry) :
    (assignScores rs entries).length = rs.length := by
  simp [assignScores]

theorem mergeSort_descLe_filter_key (l : List Restaurant) (s : Int) :
    (l.mergeSort descLe).filter (fun r => sortKey r == s)
      = l.filter (fun r => sortKey r == s) := by
  set p : Restaurant → Bool := fun r => sortKey r == s with hp
  have hsub : List.Sublist (l.filter p) l := List.filter_sublist l
  have hpw : (l.filter p).Pairwise (fun a b => descLe a b) := by
    refine List.pairwise_of_forall_mem_list ?_
    intro a ha b hb
    have ha' : sortKey a = s := by simpa [hp] using (List.mem_filter.mp ha).2
    have hb' : sortKey b = s := by simpa [hp] using (List.mem_filter.mp hb).2
    simp [descLe, ha', hb']
  have h1 : List.Sublist (l.filter p) (l.mergeSort descLe) :=
    List.sublist_mergeSort descLe_trans descLe_total hpw hsub
  have h2 : List.Sublist ((l.filter p).filter p) ((l.mergeSort descLe).filter p) :=
    h1.filter p
  rw [List.filter_filter] at h2
  have h2' : List.Sublist (l.filter p) ((l.mergeSort descLe).filter p) := by
    have : (fun a => p a && p a) = p := by funext a; cases p a <;> rfl
    rwa [this] at h2
  have hlen : ((l.mergeSort descLe).filter p).length = (l.filter p).length :=
    ((List.mergeSort_perm l descLe).filter p).length_eq
  exact (h2'.eq_of_length hlen.symm).symm

theorem mem_assignScores_score (rs : List Restaurant) (entries : List ScoreEntry)
    (r : Restaurant) (hr : r ∈ assignScores rs entries) :
    r.ai_score = some 0 ∨ ∃ e ∈ entries, r.ai_score = some (e.score.getD 0) := by
  rcases List.mem_map.mp hr with ⟨p, -, hpe⟩
  subst hpe
  rcases hfind : findScore entries ((p.1 : Int) + 1) with _ | e
  · left; simp [applyScore, hfind]
  · right
    exact ⟨e, List.mem_of_find?_eq_some hfind, by simp [applyScore, hfind]⟩

unseal List.merge List.mergeSort in
/-- C2 counterexample: the Scorer does not clamp model-provided scores, so a
parsed reply carrying the score 11 produces an element whose score is 11,
outside [0,10]. -/
theorem claim_C2_counterexample :
    scoreRestaurants [c3cand "A" 9] "quiet" "Italian" "$$"
        (.reply (some [{ restaurantIndex := some 1, score := some 11, reason := some "great" }]))
      = .ok [{ c3cand "A" 9 with ai_score := some 11, ai_reason := some "great" }] ∧
    ¬ ((11 : Int) ≤ 10) := by
  exact ⟨rfl, by decide⟩

/-- C2 (amended): for every non-empty candidate list and every model reply
(parsed or malformed), the Scorer succeeds with a list of the same length as
its input, sorted descending by score; ties keep the prior relative order, in
the sense that the elements carrying any fixed score appear exactly as in the
pre-sort assignment order; the score of every element lies in [0,10] provided every
score carried by the parsed reply lies in [0,10] (the source copies reply
scores unclamped); and on a malformed reply every element gets score exactly 5. -/
theorem claim_C2 (rs : List Restaurant) (requirements cuisine budget : String)
    (parsed : Option (List ScoreEntry)) (hne : rs ≠ []) :
    ∃ out, scoreRestaurants rs requirements cuisine budget (.reply parsed) = .ok out ∧
      out.length = rs.length ∧
      out.Pairwise (fun a b => sortKey b ≤ sortKey a) ∧
      (∀ s : Int, out.filter (fun r => sortKey r == s)
          = (preSortScored rs parsed).filter (fun r => sortKey r == s)) ∧
      ((∀ entries, parsed = some entries →
          ∀ e ∈ entries, 0 ≤ e.score.getD 0 ∧ e.score.getD 0 ≤ 10) →
        ∀ r ∈ out, ∃ v, r.ai_score = some v ∧ 0 ≤ v ∧ v ≤ 10) ∧
      (parsed = none → out = rs.map fallbackScore) := by
  have hne' : rs.isEmpty = false := by
    cases rs with
    | nil => exact absurd rfl hne
    | cons a l => rfl
  rcases parsed with _ | entries
  · refine ⟨rs.map fallbackScore, ?_, List.length_map .., ?_, fun s => rfl, ?_, fun h => rfl⟩
    · simp [scoreRestaurants, hne']
    · refine List.pairwise_of_forall_mem_list ?_
      intro a ha b hb
      rcases List.mem_map.mp ha with ⟨x, -, hx⟩
      rcases List.mem_map.mp hb with ⟨y, -, hy⟩
      subst hx; subst hy
      simp [sortKey, fallbackScore]
    · intro _ r hr
      rcases List.mem_map.mp hr with ⟨x, -, hx⟩
      subst hx
      exact ⟨5, rfl, by decide, by decide⟩
  · refine ⟨(assignScores rs entries).mergeSort descLe, ?_, ?_, ?_, ?_, ?_, ?_⟩
    · simp [scoreRestaurants, hne']
    · rw [List.length_mergeSort, length_assignScores]
    · refine ((List.sorted_mergeSort descLe_trans descLe_total
        (assignScores rs entries)).imp ?_)
      intro a b h
      simpa [descLe] using h
    · intro s
      exact mergeSort_descLe_filter_key (assignScores rs entries) s
    · intro hrange r hr
      have hr' : r ∈ assignScores rs entries := List.mem_mergeSort.mp hr
      rcases mem_assignScores_score rs entries r hr' with h0 | ⟨e, he, hsc⟩
      · exact ⟨0, h0, by decide, by decide⟩
      · exact ⟨e.score.getD 0, hsc, (hrange entries rfl e he).1, (hrange entries rfl e he).2⟩
    · intro h
      cases h

/-- Concrete candidate list for the C2 witness. -/
def c2rs : List Restaurant := [c3cand "A" 2, c3cand "B" 7]

/-- Concrete parsed reply for the C2 witness: only ordinal 2 is scored. -/
def c2entries : List ScoreEntry :=
  [{ restaurantIndex := some 2, score := some 9, reason := some "good" }]

/-- C2 witness: the amended theorem applied to a concrete two-candidate list
and a concrete parsed reply. -/
theorem claim_C2_witness :
    c2rs ≠ [] ∧
    (∃ out, scoreRestaurants c2rs "quiet" "Italian" "$$" (.reply (some c2entries)) = .ok out ∧
      out.length = c2rs.length ∧
      out.Pairwise (fun a b => sortKey b ≤ sortKey a) ∧
      (∀ s : Int, out.filter (fun r => sortKey r == s)
          = (preSortScored c2rs (some c2entries)).filter (fun r => sortKey r == s)) ∧
      ((∀ entries, (some c2entries : Option (List ScoreEntry)) = some entries →
          ∀ e ∈ entries, 0 ≤ e.score.getD 0 ∧ e.score.getD 0 ≤ 10) →
        ∀ r ∈ out, ∃ v, r.ai_score = some v ∧ 0 ≤ v ∧ v ≤ 10) ∧
      ((some c2entries : Option (List ScoreEntry)) = none → out = c2rs.map fallbackScore)) :=
  ⟨by decide, claim_C2 c2rs "quiet" "Italian" "$$" (some c2entries) (by decide)⟩

/-- C1: a task whose environment fails yields the empty-candidate Outcome for
its query; the aggregated output length is the sum of the per-task candidate
counts; and the outcome of every sibling task depends only on the environment
of that sibling, so a failing task never removes or alters the candidates of
any other task. -/
theorem claim_C1 (ui : DatePlannerAnswers) (queries : List String) (envs : Nat → TaskEnv)
    (i : Nat) (msg : String) (hfail : envs i = .sessionFail msg) :
    (∀ q, queries[i]? = some q →
      (searchPipeline ui queries envs)[i]?
        = some { query := q, session_index := i + 1, restaurants := [] }) ∧
    (aggregateRestaurants (searchPipeline ui queries envs)).length
      = ((searchPipeline ui queries envs).map (fun r => r.restaurants.length)).sum ∧
    (∀ envs' : Nat → TaskEnv, (∀ j, j ≠ i → envs' j = envs j) →
      ∀ j, j ≠ i →
        (searchPipeline ui queries envs')[j]? = (searchPipeline ui queries envs)[j]?) := by
  refine ⟨?_, length_aggregateRestaurants _, ?_⟩
  · intro q hq
    rw [searchPipeline_getElem?, hq, hfail]
    rfl
  · intro envs' hagree j hj
    rw [searchPipeline_getElem?, searchPipeline_getElem?, hagree j hj]

/-- Concrete preference set for the witnesses. -/
def wAnswers : DatePlannerAnswers :=
  { date_preference := "this Friday evening", cuisine_type := "Italian"
    location := "Austin", budget := "$$", special_requirements := "quiet" }

/-- Concrete extracted search-result item for the witnesses. -/
def wItem : SearchResultItem := { name := "Trattoria", url := "https://t.example" }

/-- Concrete enrichment detail for the witnesses. -/
def wDetail : RestaurantDetailItem :=
  { name := "Trattoria Verde", rating := "4.7 stars", price_range := "$$"
    cuisine := "Italian", location := "Austin" }

/-- Concrete task environments for the C1 witness: task 0 fails, the others
succeed with one enriched candidate. -/
def wEnvs : Nat → TaskEnv :=
  fun j => if j = 0 then .sessionFail "browser crash" else .run [wItem] [some wDetail]

/-- C1 witness: two queries, task 0 failing, and the isolation statement at
that concrete pipeline. -/
theorem claim_C1_witness :
    wEnvs 0 = TaskEnv.sessionFail "browser crash" ∧
    ((∀ q, (["q0", "q1"] : List String)[0]? = some q →
      (searchPipeline wAnswers ["q0", "q1"] wEnvs)[0]?
        = some { query := q, session_index := 0 + 1, restaurants := [] }) ∧
    (aggregateRestaurants (searchPipeline wAnswers ["q0", "q1"] wEnvs)).length
      = ((searchPipeline wAnswers ["q0", "q1"] wEnvs).map (fun r => r.restaurants.length)).sum ∧
    (∀ envs' : Nat → TaskEnv, (∀ j, j ≠ 0 → envs' j = wEnvs j) →
      ∀ j, j ≠ 0 →
        (searchPipeline wAnswers ["q0", "q1"] envs')[j]?
          = (searchPipeline wAnswers ["q0", "q1"] wEnvs)[j]?)) :=
  ⟨rfl, claim_C1 wAnswers ["q0", "q1"] wEnvs 0 "browser crash" rfl⟩

/-- C8: within one task, the verification loop visits the first
min(3, extracted) candidates in extraction order and never reorders them: the
output at position j is always the verification of the extracted item at
position j; when enrichment fails at position i the candidate is still
included there, marked unverified with neutral placeholder rating and price
texts and keeping the extracted name. -/
theorem claim_C8 (ui : DatePlannerAnswers) (query : String) (k : Nat)
    (items : List SearchResultItem) (enrich : List (Option RestaurantDetailItem))
    (i : Nat) (item : SearchResultItem) (hi : i < 3) (hitem : items[i]? = some item)
    (hfail : enrich.getD i none = none) :
    (runSingleSearch ui query k (.run items enrich)).restaurants.length
      = min 3 items.length ∧
    (∀ j : Nat, (runSingleSearch ui query k (.run items enrich)).restaurants[j]?
        = ((items.take 3)[j]?).map fun it => verifyOne ui it (enrich.getD j none)) ∧
    (runSingleSearch ui query k (.run items enrich)).restaurants[i]?
      = some (verifyOne ui item none) ∧
    (verifyOne ui item none).rating = "Rating not verified" ∧
    (verifyOne ui item none).price_range = "Price not verified" ∧
    (verifyOne ui item none).verified = some false ∧
    (verifyOne ui item none).name = item.name := by
  have hgen : ∀ j : Nat, (runSingleSearch ui query k (.run items enrich)).restaurants[j]?
      = ((items.take 3)[j]?).map fun it => verifyOne ui it (enrich.getD j none) := by
    intro j
    show ((items.take 3).enum.map fun p => verifyOne ui p.2 (enrich.getD p.1 none))[j]? = _
    rw [getElem?_enum_map]
  refine ⟨?_, hgen, ?_, rfl, rfl, rfl, rfl⟩
  · show ((items.take 3).enum.map fun p => verifyOne ui p.2 (enrich.getD p.1 none)).length = _
    rw [List.length_map, List.enum_length, List.length_take]
  · rw [hgen i, List.getElem?_take_of_lt hi, hitem, hfail]
    rfl

/-- C8 witness: one extracted item whose enrichment fails (the enrichment list
is empty), at position 0 of a concrete task. -/
theorem claim_C8_witness :
    (0 : Nat) < 3 ∧
    ([wItem] : List SearchResultItem)[0]? = some wItem ∧
    ([] : List (Option RestaurantDetailItem)).getD 0 none = none ∧
    ((runSingleSearch wAnswers "q0" 0 (.run [wItem] [])).restaurants.length
      = min 3 ([wItem] : List SearchResultItem).length ∧
    (∀ j : Nat, (runSingleSearch wAnswers "q0" 0 (.run [wItem] [])).restaurants[j]?
        = ((([wItem] : List SearchResultItem).take 3)[j]?).map
            fun it => verifyOne wAnswers it (([] : List (Option RestaurantDetailItem)).getD j none)) ∧
    (runSingleSearch wAnswers "q0" 0 (.run [wItem] [])).restaurants[0]?
      = some (verifyOne wAnswers wItem none) ∧
    (verifyOne wAnswers wItem none).rating = "Rating not verified" ∧
    (verifyOne wAnswers wItem none).price_range = "Price not verified" ∧
    (verifyOne wAnswers wItem none).verified = some false ∧
    (verifyOne wAnswers wItem none).name = wItem.name) :=
  ⟨by decide, rfl, rfl, claim_C8 wAnswers "q0" 0 [wItem] [] 0 wItem (by decide) rfl rfl⟩

end DatePlanner
